import Mathlib

/-! Verification of the HIL switch drivers.

Shallow embedding of `hil/ext/switches/juniper.py` (class `Juniper`),
`hil/ext/switches/juniper/juniper.py` (the older class `juniper`) and
`hil/ext/switches/ovs.py` (class `Ovs`).  Device I/O is modelled by
parameters: the committed configuration a port-info query would report is an
explicit argument, and connection success and commit-validation success are
explicit Booleans.  Each driver method becomes a pure function from those
inputs to the value it returns, the exception it raises, or the process exit
it performs. -/

/-- A port registered on a switch (`hil.model.Port`); the drivers use only
its `label`. -/
structure PortRec where
  label : String
  deriving DecidableEq

/-- The `vlans` entry of the per-interface JSON that `InterfaceConfigTable`
produces: a single VLAN membership is rendered as one string, several
memberships as a list of strings.  The drivers branch on exactly this shape
with `isinstance(vlans, (str, unicode))` versus `isinstance(vlans, list)`. -/
inductive VlanField where
  | one (s : String)
  | many (l : List String)
  deriving DecidableEq

/-- The fields of `_interface_info(port)[port]` that the drivers read. -/
structure PortInfo where
  trunk_mode : Bool
  disabled : Bool
  native_vlan : Option String
  vlans : VlanField
  deriving DecidableEq

/-- Python `str` on an optional value: `str(None)` is the string `"None"`. -/
def pyStr : Option String → String
  | none => "None"
  | some s => s

/-- `needle` occurs at the very start of `hay`. -/
def leadMatch : List Char → List Char → Bool
  | [], _ => true
  | _ :: _, [] => false
  | a :: as, b :: bs => a == b && leadMatch as bs

/-- Python substring containment `needle in hay` on strings. -/
def strIn (needle : List Char) : List Char → Bool
  | [] => needle.isEmpty
  | c :: tl => leadMatch needle (c :: tl) || strIn needle tl

/-- Python `'default' in vlans`: list membership when `vlans` is a list,
substring containment when it is a single string. -/
def containsDefault : VlanField → Bool
  | .one s => strIn "default".toList s.toList
  | .many l => l.contains "default"

/-- One JunOS configuration statement, as produced by the `_str_*` helpers
of `Juniper`. -/
inductive Stmt where
  | deleteDisable (port : String)
  | setTrunkInterfaceMode (port : String)
  | setVlanMember (port vlan : String)
  | deleteVlanMember (port vlan : String)
  | setNativeVlanId (port vlan : String)
  | deleteNativeVlanId (port : String)
  | deleteVlanMemberDefault (port : String)
  | deleteInterface (port : String)
  deriving DecidableEq

/-- `Juniper._str_enable_interface`: `delete interfaces P disable`. -/
def str_enable_interface (port : String) : List Stmt :=
  [Stmt.deleteDisable port]

/-- `Juniper._str_set_trunk_mode`: `set interfaces P ... interface-mode trunk`. -/
def str_set_trunk_mode (port : String) : List Stmt :=
  [Stmt.setTrunkInterfaceMode port]

/-- `Juniper._str_add_vlan`: `set interfaces P ... vlan members V`. -/
def str_add_vlan (port vlan_id : String) : List Stmt :=
  [Stmt.setVlanMember port vlan_id]

/-- `Juniper._str_remove_vlan`: `delete interfaces P ... vlan members V`. -/
def str_remove_vlan (port vlan_id : String) : List Stmt :=
  [Stmt.deleteVlanMember port vlan_id]

/-- `Juniper._str_set_native_vlan`: two statements, `set interfaces P
native-vlan-id V` and `set interfaces P ... vlan members V`. -/
def str_set_native_vlan (port vlan_id : String) : List Stmt :=
  [Stmt.setNativeVlanId port vlan_id, Stmt.setVlanMember port vlan_id]

/-- `Juniper._str_remove_native_vlan`: two statements, `delete interfaces P
native-vlan-id` and `delete interfaces P ... vlan members V`. -/
def str_remove_native_vlan (port vlan_id : String) : List Stmt :=
  [Stmt.deleteNativeVlanId port, Stmt.deleteVlanMember port vlan_id]

/-- `Juniper._str_remove_default_vlan`: `delete interfaces P ... vlan members
default`. -/
def str_remove_default_vlan (port : String) : List Stmt :=
  [Stmt.deleteVlanMemberDefault port]

/-- `Juniper._set_native_vlan`, command construction: starts from the
native-vlan statements, then in source order glues on the extra pieces by
string concatenation: set-trunk-mode is put in front when the port is not in
trunk mode, enable-interface is then put in front when the port is disabled,
and remove-default-vlan is appended when `default` is among the current
memberships.  The result is handed to `_set_commit_config` as one payload. -/
def set_native_vlan_cmds (port network_id : String) (info : PortInfo) : List Stmt :=
  let s1 := str_set_native_vlan port network_id
  let s2 := if !info.trunk_mode then str_set_trunk_mode port ++ s1 else s1
  let s3 := if info.disabled then str_enable_interface port ++ s2 else s2
  if containsDefault info.vlans then s3 ++ str_remove_default_vlan port else s3

/-- `Juniper._add_vlan_to_trunk`, command construction: same shape as
`set_native_vlan_cmds`, with `_str_add_vlan` as the core statement. -/
def add_vlan_to_trunk_cmds (port vlan_id : String) (info : PortInfo) : List Stmt :=
  let s1 := str_add_vlan port vlan_id
  let s2 := if !info.trunk_mode then str_set_trunk_mode port ++ s1 else s1
  let s3 := if info.disabled then str_enable_interface port ++ s2 else s2
  if containsDefault info.vlans then s3 ++ str_remove_default_vlan port else s3

/-- The device operation a `modify_port` branch dispatches: either one
`_set_commit_config` call (a single load of all the statements followed by a
single commit), or a `revert_port` call. -/
inductive Effect where
  | setCommit (stmts : List Stmt)
  | revert (port : String)
  deriving DecidableEq

/-- `Juniper._remove_native_vlan`: reads the committed state; computes
`vlan_id = str(native_vlan)`; when the `vlans` field is a single string the
native VLAN is the last membership and the whole port is reverted, otherwise
the remove-native statements go through `_set_commit_config`. -/
def remove_native_vlan (port : String) (info : PortInfo) : Effect :=
  let vlan_id := pyStr info.native_vlan
  match info.vlans with
  | .one _ => Effect.revert port
  | .many _ => Effect.setCommit (str_remove_native_vlan port vlan_id)

/-- `Juniper._remove_vlan_from_port`: when the `vlans` field is a single
string the port is reverted, otherwise the remove-vlan statement goes
through `_set_commit_config`. -/
def remove_vlan_from_port (port vlan_id : String) (info : PortInfo) : Effect :=
  match info.vlans with
  | .one _ => Effect.revert port
  | .many _ => Effect.setCommit (str_remove_vlan port vlan_id)

/-- Drops `lead` from the front of the second list, or fails. -/
def chopLead : List Char → List Char → Option (List Char)
  | [], rest => some rest
  | _ :: _, [] => none
  | a :: as, b :: bs => if a = b then chopLead as bs else none

/-- Python `re.match` of the pattern `vlan/(\d+)` against `channel`:
`re.match` anchors at the start of the string only, so the match succeeds
whenever the literal `vlan/` is followed by at least one digit, and the
first group is the maximal digit run at that position; characters after the
digit run are not constrained. -/
def reMatchVlanChannel (channel : String) : Option String :=
  match chopLead "vlan/".toList channel.toList with
  | none => none
  | some rest =>
    let ds := rest.takeWhile Char.isDigit
    if ds.isEmpty then none else some (String.mk ds)

/-- The channel grammar as the spec words it: exactly `vlan/native`, or
`vlan/` followed by one or more digits and nothing else. -/
def specChannelForm (ch : String) : Bool :=
  ch == "vlan/native" ||
    (match chopLead "vlan/".toList ch.toList with
     | some rest => !rest.isEmpty && rest.all Char.isDigit
     | none => false)

/-- The value `Juniper.modify_port` computes, or the exception it raises. -/
inductive JResult where
  | effect (e : Effect)
  | invalidChannelAssert
  | networkIdMismatchAssert
  | unpackError
  deriving DecidableEq

/-- Body of `Juniper.modify_port` after the port lookup succeeded.
`invalidChannelAssert` is the failure of `assert match is not None` with the
message about an invalid channel; `networkIdMismatchAssert` is the failure
of `assert network_id == vlan_id` (no message).  The `except VlanAddError`
around `_add_vlan_to_trunk` is dead in the source: nothing in
`juniper.py` ever raises `VlanAddError`. -/
def modify_port_matched (interface : String) (info : PortInfo)
    (channel : String) (network_id : Option String) : JResult :=
  if channel = "vlan/native" then
    match network_id with
    | none => JResult.effect (remove_native_vlan interface info)
    | some nid => JResult.effect (Effect.setCommit (set_native_vlan_cmds interface nid info))
  else
    match reMatchVlanChannel channel with
    | none => JResult.invalidChannelAssert
    | some vlan_id =>
      match network_id with
      | none => JResult.effect (remove_vlan_from_port interface vlan_id info)
      | some nid =>
        if nid = vlan_id then
          JResult.effect (Effect.setCommit (add_vlan_to_trunk_cmds interface vlan_id info))
        else JResult.networkIdMismatchAssert

/-- `Juniper.modify_port`: the first statement is the tuple unpacking
`(port,) = filter(lambda p: p.label == port, self.ports)`, which raises
`ValueError` unless exactly one registered port has the given label; on
success the body runs with `interface = port.label`.  `info` is the
committed configuration that `_interface_info` reports for the port. -/
def modify_port (ports : List PortRec) (info : PortInfo)
    (port channel : String) (network_id : Option String) : JResult :=
  match ports.filter (fun q => q.label == port) with
  | [p] => modify_port_matched p.label info channel network_id
  | _ => JResult.unpackError

/-- The exception object of `jnpr.junos.utils.config.ConfigLoadError`; the
driver reads its `message` attribute. -/
structure ConfigLoadError where
  message : String
  deriving DecidableEq

/-- The warning text that `Juniper._set_load_config` treats as the
already-in-target-state case. -/
def statementNotFound : String := "warning: statement not found"

/-- `Juniper._set_load_config`: runs `jun.cfg.load`; a `ConfigLoadError`
whose message is `warning: statement not found` is swallowed (the comment in
the source: it makes operations idempotent), any other `ConfigLoadError` is
returned to the caller.  The argument is the outcome of the load call. -/
def set_load_config : Option ConfigLoadError → Option ConfigLoadError
  | none => none
  | some e => if e.message = statementNotFound then none else some e

/-- What a commit step did to the session: whether the validation check was
invoked, whether a commit was invoked, whether a rollback was invoked, and
whether `ConfigCommitError` was raised. -/
structure CommitTrace where
  checkInvoked : Bool
  commitInvoked : Bool
  rollbackInvoked : Bool
  raisedConfigCommitError : Bool
  deriving DecidableEq

/-- `Juniper._commit_config` (hil/ext/switches/juniper.py, lines 191-202):
invokes `jun.cfg.commit_check()`; when the check passes it invokes
`jun.cfg.commit()`, otherwise it invokes `jun.cfg.rollback()` and raises
`ConfigCommitError`.  The argument is whether the pending configuration
would pass validation. -/
def Juniper_commit_config (checkPasses : Bool) : CommitTrace :=
  if checkPasses then
    { checkInvoked := true, commitInvoked := true,
      rollbackInvoked := false, raisedConfigCommitError := false }
  else
    { checkInvoked := true, commitInvoked := false,
      rollbackInvoked := true, raisedConfigCommitError := true }

/-- A Python bound-method object is always truthy, so a guard that names a
method without calling it takes its then-branch unconditionally. -/
def boundMethodTruthy : Bool := true

/-- `juniper._commit_config` (hil/ext/switches/juniper/juniper.py, lines
71-80): the guard is `if jun.cfg.commit_check:` — an attribute access, not a
call, so the validation check never runs and the guard is decided by the
truthiness of the bound-method object, independent of `_checkPasses`.  The
then-branch is the bare expression statement `jun.cfg.commit`, again an
attribute access that invokes nothing; the else-branch, `jun.cfg.rollback`,
would likewise invoke nothing, and no exception is raised on either path
(the module does not even define `ConfigCommitError`). -/
def juniper_old_commit_config (_checkPasses : Bool) : CommitTrace :=
  if boundMethodTruthy then
    { checkInvoked := false, commitInvoked := false,
      rollbackInvoked := false, raisedConfigCommitError := false }
  else
    { checkInvoked := false, commitInvoked := false,
      rollbackInvoked := false, raisedConfigCommitError := false }

/-- How a `Juniper._set_commit_config` call ends, as seen from outside. -/
inductive SetCommitOutcome where
  | ok
  | processExit (code : Nat)
  | connectMessage (msg : String)
  deriving DecidableEq

/-- `Juniper._set_commit_config`: opens a session (a `ConnectError` is
caught and a message string is returned); loads via `_set_load_config`,
whose returned error, if any, is discarded; then commits via
`_commit_config`; a `ConfigCommitError` raised there is caught and the
process is terminated with `sys.exit(1)`. -/
def set_commit_config (connectOk : Bool) (loadResult : Option ConfigLoadError)
    (checkPasses : Bool) : SetCommitOutcome :=
  if connectOk then
    let _ := set_load_config loadResult
    if (Juniper_commit_config checkPasses).raisedConfigCommitError then
      SetCommitOutcome.processExit 1
    else SetCommitOutcome.ok
  else SetCommitOutcome.connectMessage "cannot connect to device"

/-- How a `Juniper._interface_info` call ends. -/
inductive InterfaceInfoResult where
  | info (i : PortInfo)
  | processExit (code : Nat)
  deriving DecidableEq

/-- `Juniper._interface_info`: reads the committed configuration of the
port; on `ConnectError` it prints a message and calls `sys.exit(1)`. -/
def interface_info (connectOk : Bool) (committed : PortInfo) : InterfaceInfoResult :=
  if connectOk then InterfaceInfoResult.info committed
  else InterfaceInfoResult.processExit 1

/-- Modelled from the spec: the factory-default port template
`junos/jinja_templates/default_port_config.j2` that `Juniper.revert_port`
loads is not among the source files; per the spec, reverting a port clears
trunk mode, clears the native VLAN, restores the default VLAN membership and
leaves the interface in its disabled factory state. -/
def revert_port_result : PortInfo :=
  { trunk_mode := false, disabled := true,
    native_vlan := none, vlans := VlanField.one "default" }

/-- Python `vlans == native_no`: a single-string `vlans` equals the native
value exactly when both are the same string; a list never compares equal to
a string or to `None`. -/
def vlansEqNative : VlanField → Option String → Bool
  | .one s, some n => s == n
  | _, _ => false

/-- Iterating the `vlans` value in Python: iterating a list yields its
elements, but iterating a single string yields its characters one by one. -/
def pyIterVlans : VlanField → List String
  | .one s => s.toList.map (fun c => String.mk [c])
  | .many l => l

/-- The `(channel, vlan_id)` pair built for one membership. -/
def vlanPair (v : String) : String × String := ("vlan/" ++ v, v)

/-- The filter at the end of the fourth and fifth branches of
`get_port_networks`: drops pairs whose channel is `vlan/default` or
`vlan/<native>`. -/
def gpnFilter (nativeStr : String) (xs : List (String × String)) :
    List (String × String) :=
  xs.filter (fun x => !(x.1 == "vlan/default" || x.1 == "vlan/" ++ nativeStr))

/-- The per-port loop of `Juniper.get_port_networks` (the `Ovs` copy is
textually identical).  `all_output` is initialised to the empty list once,
before the loop; the branch for a port with no native VLAN and a list of
memberships appends to it without resetting it, and only the final branch
(native VLAN present) reassigns it. -/
def gpnLoop : List (String × PortInfo) → List (String × String) →
    List (String × List (String × String))
  | [], _ => []
  | (port, info) :: rest, all_output =>
    let native_no := info.native_vlan
    let vlans := info.vlans
    if vlans = VlanField.one "default" then
      (port, []) :: gpnLoop rest all_output
    else if vlansEqNative vlans native_no then
      (port, [("vlan/native", pyStr native_no)]) :: gpnLoop rest all_output
    else
      match native_no, vlans with
      | none, .one s =>
        (port, [vlanPair s]) :: gpnLoop rest all_output
      | none, .many l =>
        let ao := all_output ++ l.map vlanPair
        (port, gpnFilter (pyStr none) ao) :: gpnLoop rest ao
      | some n, v =>
        let ao := ("vlan/native", n) :: (pyIterVlans v).map vlanPair
        (port, gpnFilter n ao) :: gpnLoop rest ao

/-- `Juniper.get_port_networks` over a list of (port label, committed
configuration) pairs; the result keeps the ports in input order. -/
def get_port_networks (ports : List (String × PortInfo)) :
    List (String × List (String × String)) :=
  gpnLoop ports []

/-- The attribute names bound in the class body of `Ovs`
(hil/ext/switches/ovs.py): the data attributes and the methods the class
defines.  `_set_commands`, `_set_commit_config` and `_clear_set_commands`,
which the four VLAN helper methods call on `self`, are not among them, and
no other source file defines them; the spec models the base class as the
`SwitchSession` contract, which has no such operations either. -/
def ovsClassAttrs : List String :=
  ["api_name", "dir_name", "__mapper_args__", "id", "hostname", "username",
   "password", "enable_interface", "add_vlan", "remove_vlan",
   "set_native_vlan", "remove_native_vlan", "remove_default_vlan",
   "set_trunk_mode", "validate", "session", "disconnect",
   "validate_port_name", "str2list", "str2dict", "_create_session",
   "_interface_info", "revert_port", "modify_port", "get_port_networks",
   "_set_native_vlan", "_remove_native_vlan", "_get_mode",
   "_add_vlan_to_trunk", "_remove_vlan_from_port"]

/-- Whether attribute lookup on an `Ovs` instance finds `n`. -/
def ovsHasAttr (n : String) : Bool := ovsClassAttrs.contains n

/-- The value an `Ovs` VLAN operation computes, or the exception it
raises. -/
inductive OvsResult where
  | done
  | attributeError (attr : String)
  | invalidChannelAssert
  | networkIdMismatchAssert
  | unpackError
  | unmodelled
  deriving DecidableEq

/-- Calling `self.<name>(...)` on an `Ovs` instance: when the lookup fails
Python raises `AttributeError` and the rest of the method body never runs.
`k` stands for the continuation in the defined case; for the helpers below
that case is dead (see `ovsHasAttr`), so it is left `unmodelled`. -/
def ovsCall (name : String) (k : OvsResult) : OvsResult :=
  if ovsHasAttr name then k else OvsResult.attributeError name

/-- `Ovs._set_native_vlan`: reads `_interface_info` (assumed to succeed),
then calls `self._set_commands(port, network_id)`. -/
def ovs_set_native_vlan (_port _network_id : String) (_info : PortInfo) : OvsResult :=
  ovsCall "_set_commands" OvsResult.unmodelled

/-- `Ovs._remove_native_vlan`: reads `_interface_info`, computes
`str(native_vlan)`, then calls `self._set_commands(port, vlan_id)` — before
the branch that could revert the port. -/
def ovs_remove_native_vlan (_port : String) (_info : PortInfo) : OvsResult :=
  ovsCall "_set_commands" OvsResult.unmodelled

/-- `Ovs._add_vlan_to_trunk`: its first statement is
`self._set_commands(port, vlan_id)`. -/
def ovs_add_vlan_to_trunk (_port _vlan_id : String) (_info : PortInfo) : OvsResult :=
  ovsCall "_set_commands" OvsResult.unmodelled

/-- `Ovs._remove_vlan_from_port`: its first statement is
`self._set_commands(port, vlan_id)`. -/
def ovs_remove_vlan_from_port (_port _vlan_id : String) (_info : PortInfo) : OvsResult :=
  ovsCall "_set_commands" OvsResult.unmodelled

/-- Body of `Ovs.modify_port` after the port lookup succeeded; the
dispatching code is textually identical to `Juniper.modify_port`. -/
def ovs_modify_port_matched (interface : String) (info : PortInfo)
    (channel : String) (network_id : Option String) : OvsResult :=
  if channel = "vlan/native" then
    match network_id with
    | none => ovs_remove_native_vlan interface info
    | some nid => ovs_set_native_vlan interface nid info
  else
    match reMatchVlanChannel channel with
    | none => OvsResult.invalidChannelAssert
    | some vlan_id =>
      match network_id with
      | none => ovs_remove_vlan_from_port interface vlan_id info
      | some nid =>
        if nid = vlan_id then ovs_add_vlan_to_trunk interface vlan_id info
        else OvsResult.networkIdMismatchAssert

/-- `Ovs.modify_port`: tuple unpacking of the filtered port list, then the
channel dispatch. -/
def ovs_modify_port (ports : List PortRec) (info : PortInfo)
    (port channel : String) (network_id : Option String) : OvsResult :=
  match ports.filter (fun q => q.label == port) with
  | [p] => ovs_modify_port_matched p.label info channel network_id
  | _ => OvsResult.unpackError

/-- A committed state used to instantiate theorems: factory default. -/
def sampleInfo : PortInfo :=
  { trunk_mode := false, disabled := true,
    native_vlan := none, vlans := VlanField.one "default" }

/-- A committed state whose single membership is the native VLAN `100`. -/
def sampleOneVlanInfo : PortInfo :=
  { trunk_mode := true, disabled := false,
    native_vlan := some "100", vlans := VlanField.one "100" }

/-- A committed state with two tagged memberships and no native VLAN. -/
def sampleManyVlanInfo : PortInfo :=
  { trunk_mode := true, disabled := false,
    native_vlan := none, vlans := VlanField.many ["12", "30"] }

/-- A tagged-only port carrying VLAN `10`. -/
def leakInfoA : PortInfo :=
  { trunk_mode := true, disabled := false,
    native_vlan := none, vlans := VlanField.many ["10"] }

/-- A tagged-only port carrying VLAN `20`. -/
def leakInfoB : PortInfo :=
  { trunk_mode := true, disabled := false,
    native_vlan := none, vlans := VlanField.many ["20"] }

theorem filter_single_label (p : String) :
    [PortRec.mk p].filter (fun q => q.label == p) = [PortRec.mk p] := by
  simp [List.filter]

theorem modify_port_single (p : String) (info : PortInfo) (ch : String)
    (nid : Option String) :
    modify_port [PortRec.mk p] info p ch nid = modify_port_matched p info ch nid := by
  unfold modify_port
  rw [filter_single_label]

theorem ovs_modify_port_single (p : String) (info : PortInfo) (ch : String)
    (nid : Option String) :
    ovs_modify_port [PortRec.mk p] info p ch nid =
      ovs_modify_port_matched p info ch nid := by
  unfold ovs_modify_port
  rw [filter_single_label]

theorem modify_port_matched_ne_unpack (i : String) (info : PortInfo)
    (ch : String) (nid : Option String) :
    modify_port_matched i info ch nid ≠ JResult.unpackError := by
  unfold modify_port_matched
  by_cases hc : ch = "vlan/native"
  · rw [if_pos hc]
    cases nid <;> simp
  · rw [if_neg hc]
    cases reMatchVlanChannel ch with
    | none => simp
    | some d =>
      cases nid with
      | none => simp
      | some n =>
        dsimp only
        split <;> simp

theorem setCommands_not_defined : ovsHasAttr "_set_commands" = false := by decide

theorem reMatch_native_none : reMatchVlanChannel "vlan/native" = none := by decide

/-- C1: the claim says every `modify_port` / `revert_port` commit is
validated first, with rollback and `ConfigCommitError` on failure.  The
`Juniper` driver behaves that way inside `_commit_config`, but the `juniper`
driver does not: its `_commit_config` — reached from its `revert_port` and
`_set_commit_config` — references `commit_check`, `commit` and `rollback` as
attributes without calling them, so on a configuration that would fail
validation it neither validates, commits, rolls back, nor raises. -/
theorem juniper_old_commit_config_skips_validation :
    juniper_old_commit_config false =
      { checkInvoked := false, commitInvoked := false,
        rollbackInvoked := false, raisedConfigCommitError := false }
    ∧ Juniper_commit_config false =
      { checkInvoked := true, commitInvoked := false,
        rollbackInvoked := true, raisedConfigCommitError := true } :=
  ⟨rfl, rfl⟩

/-- C2: `_set_load_config` swallows exactly the `ConfigLoadError` whose
message is `warning: statement not found` (the delete-of-absent-state case),
returns any other load error to its caller, and a repeated `modify_port`
whose load only produces that warning goes on to commit and completes as
success. -/
theorem set_load_config_idempotent (e : ConfigLoadError) :
    set_load_config (some { message := statementNotFound }) = none
    ∧ (e.message ≠ statementNotFound → set_load_config (some e) = some e)
    ∧ set_commit_config true (some { message := statementNotFound }) true =
        SetCommitOutcome.ok := by
  refine ⟨by simp [set_load_config], fun h => ?_, rfl⟩
  simp [set_load_config, h]

theorem set_load_config_idempotent_witness :
    ConfigLoadError.message { message := "error: could not resolve statement" } ≠
        statementNotFound
    ∧ set_load_config (some { message := "error: could not resolve statement" }) =
        some { message := "error: could not resolve statement" } :=
  ⟨by decide,
   (set_load_config_idempotent
      { message := "error: could not resolve statement" }).2.1 (by decide)⟩

/-- C3: the claim says no driver code path terminates the hosting process.
The code contradicts it: `_set_commit_config` reacts to a commit-validation
failure by catching `ConfigCommitError` and calling `sys.exit(1)`, and
`_interface_info` — the entry point of `get_port_networks` and of every
`modify_port` helper — reacts to a `ConnectError` the same way. -/
theorem driver_exits_process :
    set_commit_config true none false = SetCommitOutcome.processExit 1
    ∧ interface_info false sampleInfo = InterfaceInfoResult.processExit 1 :=
  ⟨rfl, rfl⟩

/-- C4: when the committed state shows a single remaining membership (the
`vlans` JSON field is one string), both removal paths of `modify_port` — the
native path with a null network id, and the tagged path — dispatch the very
same `revert_port` call, so either ends in the state an explicit
`revert_port` produces: trunk mode cleared, native VLAN cleared, default
VLAN restored. -/
theorem last_vlan_removal_is_revert (p s ch d : String) (info : PortInfo)
    (h : info.vlans = VlanField.one s)
    (hne : ch ≠ "vlan/native") (hch : reMatchVlanChannel ch = some d) :
    modify_port [PortRec.mk p] info p "vlan/native" none =
      JResult.effect (Effect.revert p)
    ∧ modify_port [PortRec.mk p] info p ch none = JResult.effect (Effect.revert p)
    ∧ revert_port_result.trunk_mode = false
    ∧ revert_port_result.native_vlan = none
    ∧ revert_port_result.vlans = VlanField.one "default" := by
  refine ⟨?_, ?_, rfl, rfl, rfl⟩
  · rw [modify_port_single]
    unfold modify_port_matched
    rw [if_pos rfl]
    simp [remove_native_vlan, h]
  · rw [modify_port_single]
    unfold modify_port_matched
    rw [if_neg hne, hch]
    simp [remove_vlan_from_port, h]

theorem last_vlan_removal_is_revert_witness :
    modify_port [PortRec.mk "p1"] sampleOneVlanInfo "p1" "vlan/native" none =
      JResult.effect (Effect.revert "p1")
    ∧ modify_port [PortRec.mk "p1"] sampleOneVlanInfo "p1" "vlan/100" none =
      JResult.effect (Effect.revert "p1") := by
  have h := last_vlan_removal_is_revert "p1" "100" "vlan/100" "100"
    sampleOneVlanInfo rfl (by decide) (by decide)
  exact ⟨h.1, h.2.1⟩

/-- C5: the payload each VLAN-adding path submits in its single
load-then-commit is exactly enable-interface (when the port is disabled),
then set-trunk-mode (when it is not in trunk mode), then the add-VLAN
statements, then remove-default-vlan (when `default` is among the committed
memberships), in that order; and `modify_port` dispatches exactly this
payload as one `_set_commit_config` call, in the native and in the tagged
case. -/
theorem add_vlan_payload_order (p v ch : String) (info : PortInfo)
    (hne : ch ≠ "vlan/native") (hch : reMatchVlanChannel ch = some v) :
    add_vlan_to_trunk_cmds p v info =
      (if info.disabled then str_enable_interface p else [])
      ++ (if info.trunk_mode then [] else str_set_trunk_mode p)
      ++ str_add_vlan p v
      ++ (if containsDefault info.vlans then str_remove_default_vlan p else [])
    ∧ set_native_vlan_cmds p v info =
      (if info.disabled then str_enable_interface p else [])
      ++ (if info.trunk_mode then [] else str_set_trunk_mode p)
      ++ str_set_native_vlan p v
      ++ (if containsDefault info.vlans then str_remove_default_vlan p else [])
    ∧ modify_port [PortRec.mk p] info p "vlan/native" (some v) =
        JResult.effect (Effect.setCommit (set_native_vlan_cmds p v info))
    ∧ modify_port [PortRec.mk p] info p ch (some v) =
        JResult.effect (Effect.setCommit (add_vlan_to_trunk_cmds p v info)) := by
  refine ⟨?_, ?_, ?_, ?_⟩
  · unfold add_vlan_to_trunk_cmds
    cases hd : info.disabled <;> cases ht : info.trunk_mode <;>
      cases hv : containsDefault info.vlans <;> simp [hd, ht, hv]
  · unfold set_native_vlan_cmds
    cases hd : info.disabled <;> cases ht : info.trunk_mode <;>
      cases hv : containsDefault info.vlans <;> simp [hd, ht, hv]
  · rw [modify_port_single]
    unfold modify_port_matched
    rw [if_pos rfl]
  · rw [modify_port_single]
    unfold modify_port_matched
    rw [if_neg hne, hch]
    simp

theorem add_vlan_payload_order_witness :
    add_vlan_to_trunk_cmds "p1" "12" sampleInfo =
      str_enable_interface "p1" ++ str_set_trunk_mode "p1"
        ++ str_add_vlan "p1" "12" ++ str_remove_default_vlan "p1" := by
  rw [(add_vlan_payload_order "p1" "12" "vlan/12" sampleInfo
    (by decide) (by decide)).1]
  decide

/-- C6: the claim says a well-formed `Ovs.modify_port` call ends in success,
`VlanAddError` or `ConfigCommitError`.  The code contradicts it: every VLAN
helper of `Ovs` starts by calling `self._set_commands(...)` — and later
`self._set_commit_config(...)` and `self._clear_set_commands()` — none of
which the class defines, so every well-formed call raises `AttributeError`
at the first such lookup. -/
theorem ovs_modify_port_raises_attribute_error (p ch : String)
    (nid : Option String) (info : PortInfo)
    (hvalid : ch = "vlan/native" ∨
      ∃ d, reMatchVlanChannel ch = some d ∧ (nid = none ∨ nid = some d)) :
    ovs_modify_port [PortRec.mk p] info p ch nid =
      OvsResult.attributeError "_set_commands" := by
  rw [ovs_modify_port_single]
  unfold ovs_modify_port_matched
  rcases hvalid with hc | ⟨d, hd, hnid⟩
  · rw [if_pos hc]
    cases nid <;>
      simp [ovs_remove_native_vlan, ovs_set_native_vlan, ovsCall,
        setCommands_not_defined]
  · have hne : ch ≠ "vlan/native" := by
      intro hx
      rw [hx, reMatch_native_none] at hd
      exact Option.noConfusion hd
    rw [if_neg hne, hd]
    rcases hnid with rfl | rfl
    · simp [ovs_remove_vlan_from_port, ovsCall, setCommands_not_defined]
    · simp [ovs_add_vlan_to_trunk, ovsCall, setCommands_not_defined]

theorem ovs_modify_port_raises_attribute_error_witness :
    ovs_modify_port [PortRec.mk "p1"] sampleInfo "p1" "vlan/native" (some "100") =
      OvsResult.attributeError "_set_commands" :=
  ovs_modify_port_raises_attribute_error "p1" "vlan/native" (some "100")
    sampleInfo (Or.inl rfl)

/-- C7 counterexample: `vlan/12x` is neither `vlan/native` nor `vlan/`
followed by digits only, yet `modify_port` raises no assertion — `re.match`
anchors at the start only, accepts the digit run `12`, and the call goes on
to dispatch a device operation deleting VLAN `12`. -/
theorem invalid_channel_not_rejected :
    specChannelForm "vlan/12x" = false
    ∧ modify_port [PortRec.mk "p1"] sampleManyVlanInfo "p1" "vlan/12x" none =
        JResult.effect (Effect.setCommit (str_remove_vlan "p1" "12")) := by
  constructor
  · decide
  · decide

/-- C7 amended: the invalid-channel assertion fires exactly when the channel
is neither `vlan/native` nor starts with `vlan/` followed by at least one
digit; a channel whose leading digit run is followed by other characters
(such as `vlan/12x`) passes the check, with the digit run used as the VLAN
id.  When the assertion fires, the result is the assertion itself and no
device effect. -/
theorem invalid_channel_assert_characterisation (p ch : String)
    (nid : Option String) (info : PortInfo) :
    modify_port [PortRec.mk p] info p ch nid = JResult.invalidChannelAssert
      ↔ ch ≠ "vlan/native" ∧ reMatchVlanChannel ch = none := by
  rw [modify_port_single]
  unfold modify_port_matched
  by_cases hc : ch = "vlan/native"
  · subst hc
    rw [if_pos rfl]
    cases nid <;> simp
  · rw [if_neg hc]
    cases hm : reMatchVlanChannel ch with
    | none => simp [hc]
    | some d =>
      cases nid with
      | none => simp [hm]
      | some n =>
        dsimp only
        split <;> simp [hm]

/-- C9: on a tagged channel with a non-null network id, `modify_port`
requires the network id to equal the digits parsed from the channel: when
they differ, `assert network_id == vlan_id` fails and no device command is
issued; when they are equal, the assertion cannot fire and the add-VLAN
payload is dispatched. -/
theorem network_id_must_match_channel (p ch d nid : String) (info : PortInfo)
    (hne : ch ≠ "vlan/native") (hch : reMatchVlanChannel ch = some d) :
    (nid ≠ d → modify_port [PortRec.mk p] info p ch (some nid) =
        JResult.networkIdMismatchAssert)
    ∧ (nid = d → modify_port [PortRec.mk p] info p ch (some nid) =
        JResult.effect (Effect.setCommit (add_vlan_to_trunk_cmds p d info))) := by
  constructor <;> intro h <;>
    rw [modify_port_single] <;>
    unfold modify_port_matched <;>
    rw [if_neg hne, hch] <;>
    simp [h]

theorem network_id_must_match_channel_witness :
    modify_port [PortRec.mk "p1"] sampleInfo "p1" "vlan/7" (some "8") =
      JResult.networkIdMismatchAssert :=
  (network_id_must_match_channel "p1" "vlan/7" "7" "8" sampleInfo
    (by decide) (by decide)).1 (by decide)

/-- C10: `modify_port` starts with the tuple unpacking of the registered
ports filtered by label; the unpacking raises exactly when the number of
matches differs from one — before any device interaction — and with exactly
one match the unpacking failure cannot occur. -/
theorem modify_port_requires_unique_label (ports : List PortRec)
    (info : PortInfo) (p ch : String) (nid : Option String) :
    ((ports.filter (fun q => q.label == p)).length ≠ 1 →
        modify_port ports info p ch nid = JResult.unpackError)
    ∧ ((ports.filter (fun q => q.label == p)).length = 1 →
        modify_port ports info p ch nid ≠ JResult.unpackError) := by
  constructor
  · intro h
    unfold modify_port
    cases hl : ports.filter (fun q => q.label == p) with
    | nil => rfl
    | cons a t =>
      cases t with
      | nil =>
        rw [hl] at h
        exact absurd rfl h
      | cons b t2 => rfl
  · intro h
    unfold modify_port
    cases hl : ports.filter (fun q => q.label == p) with
    | nil =>
      rw [hl] at h
      simp at h
    | cons a t =>
      cases t with
      | nil => exact modify_port_matched_ne_unpack a.label info ch nid
      | cons b t2 =>
        rw [hl] at h
        simp at h

theorem modify_port_requires_unique_label_witness :
    modify_port [] sampleInfo "p1" "vlan/native" none = JResult.unpackError :=
  (modify_port_requires_unique_label [] sampleInfo "p1" "vlan/native" none).1
    (by decide)

/-- C8: the claim says each port of `get_port_networks` is mapped only to
pairs from its own configuration.  The code contradicts it: `all_output` is
initialised once before the port loop and the tagged-only branch appends to
it without resetting it, so with two tagged-only ports the second row also
contains the first row of the first port. -/
theorem get_port_networks_leaks_across_ports :
    get_port_networks [("p1", leakInfoA), ("p2", leakInfoB)] =
      [("p1", [("vlan/10", "10")]),
       ("p2", [("vlan/10", "10"), ("vlan/20", "20")])] := by
  decide
